import Mathlib

/-!
Verification of the comparative news-analysis core
(compare_articles, generate_impact_analysis, get_overall_sentiment,
generate_final_sentiment_text in communication/utils.py).

Modelling conventions:
* A Python article dict is modelled by the `Article` structure.  The
  expression `a.get("sentiment", \x7b\x7d).get("label")` yields `None` when
  either key is absent, so it is modelled by `sentimentLabel : Option String`;
  the variant with default, `.get("label", "Unknown")`, is `Option.getD`
  applied to the same field.  The check `"topics" in a` is
  `topics.isSome`, and `a.get("topics", [])` is `topics.getD []`.
* Python `set(...)` values are modelled by `Finset String`; casting a set
  back to a list with `list(...)` enumerates in hash order, which has no
  deterministic semantics, so set-valued outputs stay `Finset String`.
* The fallback threshold test `count >= max(2, len(all_topics) * 0.3)`
  compares an integer with a float.  Since 3n/10 is always a multiple of
  1/10, double rounding of `n * 0.3` cannot move the value across an
  integer, hence the comparison is exactly `10 * count >= max(20, 3 * n)`,
  which is how it is rendered here.
* The ratio tests `positive_ratio > 0.6` and `> 0.4` in
  get_overall_sentiment compare `P / total` (float division) against the
  doubles nearest to 3/5 and 2/5; for all realistic totals this coincides
  with the exact rational comparison, rendered as `5 * P > 3 * total` and
  `5 * P > 2 * total`.
-/

/-- ASCII apostrophe, used when rebuilding the narrative strings of the
source (string literals in this file avoid the raw character). -/
def apos : String := String.singleton (Char.ofNat 39)

/-- One article record as consumed by the comparative core. -/
structure Article where
  title : Option String
  sentimentLabel : Option String
  topics : Option (List String)
  deriving DecidableEq

/-- Fallback article used to model positional indexing (indices produced by
the loops are always in bounds, so the default is never observed). -/
def defaultArticle : Article := ⟨none, none, none⟩

/-- The three-key sentiment distribution. -/
structure SentimentDist where
  positive : Nat
  negative : Nat
  neutral : Nat
  deriving DecidableEq

/-- One coverage-difference entry. -/
structure CoverageDifference where
  comparison : String
  impact : String
  deriving DecidableEq

/-- The structure returned by compare_articles.  Set-valued parts are kept
as finsets because the source casts Python sets to lists in hash order. -/
structure CompareResult where
  sentimentDistribution : SentimentDist
  coverageDifferences : List CoverageDifference
  commonTopics : Finset String
  uniqueTopics : List (Finset String)
  deriving DecidableEq

/-- `[set(a.get("topics", [])) for a in articles if "topics" in a]`. -/
def topicSets (articles : List Article) : List (Finset String) :=
  (articles.filterMap Article.topics).map List.toFinset

/-- `set.intersection(*all_topics) if all_topics else set()`. -/
def strictIntersection : List (Finset String) → Finset String
  | [] => ∅
  | t :: ts => ts.foldl (· ∩ ·) t

/-- Number of topic sets containing `t` (the value `topic_counts[t]` built
by the two nested loops of the fallback branch). -/
def topicCount (allTopics : List (Finset String)) (t : String) : Nat :=
  (allTopics.filter (fun ts => t ∈ ts)).length

/-- The fallback set comprehension
`\x7btopic for topic, count in topic_counts.items() if count >= threshold\x7d`
with `threshold = max(2, len(all_topics) * 0.3)`; the float comparison is
rendered exactly as `10 * count >= max(20, 3 * n)` (see the file header). -/
def frequencyCommonTopics (allTopics : List (Finset String)) : Finset String :=
  (allTopics.foldl (· ∪ ·) ∅).filter
    (fun t => 10 * topicCount allTopics t ≥ max 20 (3 * allTopics.length))

/-- The common-topics computation: the strict intersection, replaced by the
frequency fallback when it is empty and at least one topic set exists. -/
def commonTopicsOf (allTopics : List (Finset String)) : Finset String :=
  let strict := strictIntersection allTopics
  if strict = ∅ ∧ allTopics ≠ [] then frequencyCommonTopics allTopics else strict

/-- `"Both articles share similar sentiment, reinforcing the same perception."` -/
def sharedPerceptionText : String :=
  "Both articles share similar sentiment, reinforcing the same perception."

/-- The market-uncertainty narrative of the (Positive, Negative) branch. -/
def marketUncertaintyText : String :=
  "The conflicting sentiment between these articles may create market uncertainty. Investors might need to evaluate both perspectives before making decisions."

/-- The multiple-interpretations narrative of the (Negative, Positive) branch. -/
def multipleInterpretationsText : String :=
  "The contrasting views present a complex picture. This divergence suggests the company" ++ apos ++ "s situation has multiple interpretations."

/-- The counterbalance template of the branch taken when one label is
Neutral, with the other label lower-cased substituted in. -/
def counterbalanceText (other : String) : String :=
  "The " ++ other.toLower ++ " sentiment in one article is counterbalanced by a neutral perspective in the other."

/-- The generic fallback narrative. -/
def differentAspectsText : String :=
  "The articles present different aspects of the company" ++ apos ++ "s situation."

/-- generate_impact_analysis from communication/utils.py.  Both labels are
read with `.get("label", "Unknown")`, so an absent sentiment resolves to
the string Unknown here.  The except branch of the source is unreachable
in this typed model (attribute access cannot fail). -/
def generate_impact_analysis (article1 article2 : Article) : String :=
  let sentiment1 := article1.sentimentLabel.getD "Unknown"
  let sentiment2 := article2.sentimentLabel.getD "Unknown"
  if sentiment1 = sentiment2 then
    sharedPerceptionText
  else if sentiment1 = "Positive" ∧ sentiment2 = "Negative" then
    marketUncertaintyText
  else if sentiment1 = "Negative" ∧ sentiment2 = "Positive" then
    multipleInterpretationsText
  else if sentiment1 = "Neutral" ∨ sentiment2 = "Neutral" then
    let other := if sentiment2 = "Neutral" then sentiment1 else sentiment2
    counterbalanceText other
  else
    differentAspectsText

/-- The comparison sentence built for an emitted pair (i, j); titles fall
back to the positional label, labels to Unknown, topic lists to the first
three entries or the phrase `the subject`. -/
def mkComparison (a1 : Article) (i : Nat) (a2 : Article) (j : Nat) : String :=
  let topics1 := (a1.topics.getD []).take 3
  let topics2 := (a2.topics.getD []).take 3
  "Article " ++ apos ++ a1.title.getD ("Article " ++ toString (i + 1)) ++ apos ++
    " has " ++ a1.sentimentLabel.getD "Unknown" ++ " sentiment about " ++
    (if topics1 ≠ [] then String.intercalate ", " topics1 else "the subject") ++
    ", while Article " ++ apos ++ a2.title.getD ("Article " ++ toString (j + 1)) ++ apos ++
    " has " ++ a2.sentimentLabel.getD "Unknown" ++ " sentiment about " ++
    (if topics2 ≠ [] then String.intercalate ", " topics2 else "the subject") ++ "."

/-- The nested loop
`for i in range(len(articles)): for j in range(i+1, min(i+3, len(articles)))`
emitting a difference whenever the raw labels (no default) differ. -/
def coverageDifferencesAll (articles : List Article) : List CoverageDifference :=
  (List.range articles.length).flatMap (fun i =>
    (List.range' (i + 1) (min (i + 3) articles.length - (i + 1))).filterMap (fun j =>
      if (articles[i]?.getD defaultArticle).sentimentLabel ≠
          (articles[j]?.getD defaultArticle).sentimentLabel then
        some ⟨mkComparison (articles[i]?.getD defaultArticle) i
                (articles[j]?.getD defaultArticle) j,
              generate_impact_analysis (articles[i]?.getD defaultArticle)
                (articles[j]?.getD defaultArticle)⟩
      else none))

/-- The zero-valued default structure returned for an empty batch (and by
the except branch of the source, unreachable in this typed model). -/
def emptyCompareResult : CompareResult :=
  { sentimentDistribution := ⟨0, 0, 0⟩
    coverageDifferences := []
    commonTopics := ∅
    uniqueTopics := [] }

/-- compare_articles from communication/utils.py. -/
def compare_articles (articles : List Article) : CompareResult :=
  if articles = [] then emptyCompareResult
  else
    let sentimentDistribution : SentimentDist :=
      ⟨articles.countP (fun a => decide (a.sentimentLabel = some "Positive")),
       articles.countP (fun a => decide (a.sentimentLabel = some "Negative")),
       articles.countP (fun a => decide (a.sentimentLabel = some "Neutral"))⟩
    let allTopics := topicSets articles
    let commonTopics := commonTopicsOf allTopics
    let uniqueTopics := allTopics.map (fun ts => ts \ commonTopics)
    { sentimentDistribution := sentimentDistribution
      coverageDifferences := (coverageDifferencesAll articles).take 5
      commonTopics := commonTopics
      uniqueTopics := uniqueTopics }

/-- Total of a sentiment distribution (`sum(sentiment_dist.values())`). -/
def distTotal (d : SentimentDist) : Nat := d.positive + d.negative + d.neutral

/-- get_overall_sentiment from communication/utils.py, on the reachable
input shape (the three-key distribution).  The guards for a falsy
argument and for an internal exception both return Neutral, exactly like
the `total == 0` branch kept here.  Float ratio tests are rendered as the
equivalent exact integer comparisons (see the file header). -/
def get_overall_sentiment (dist : SentimentDist) : String :=
  if distTotal dist = 0 then "Neutral"
  else if 5 * dist.positive > 3 * distTotal dist then "Very Positive"
  else if 5 * dist.positive > 2 * distTotal dist then "Moderately Positive"
  else if 5 * dist.negative > 3 * distTotal dist then "Very Negative"
  else if 5 * dist.negative > 2 * distTotal dist then "Moderately Negative"
  else "Mixed or Neutral"

/-- generate_final_sentiment_text from communication/utils.py, on the
reachable input shape.  The except branch (the inconclusive narrative) is
unreachable in this typed model. -/
def generate_final_sentiment_text (company_name : String) (dist : SentimentDist) : String :=
  if distTotal dist = 0 then
    "No reliable sentiment data available for " ++ company_name ++ "."
  else if get_overall_sentiment dist = "Very Positive" then
    company_name ++ apos ++ "s latest news coverage is overwhelmingly positive. The company is receiving favorable attention which may indicate strong performance."
  else if get_overall_sentiment dist = "Moderately Positive" then
    company_name ++ apos ++ "s recent news coverage leans positive. The company appears to be performing well despite some challenges."
  else if get_overall_sentiment dist = "Very Negative" then
    company_name ++ apos ++ "s latest news coverage is predominantly negative. The company may be facing significant challenges that could impact its performance."
  else if get_overall_sentiment dist = "Moderately Negative" then
    company_name ++ apos ++ "s recent news coverage tends to be negative. The company appears to be facing some challenges that warrant attention."
  else
    company_name ++ apos ++ "s recent news coverage shows mixed sentiment. The company has both positive developments and challenges to navigate."

/-! Spec-side definitions, written from the wording of the claims, to be
compared with the source translation above. -/

/-- The candidate pairs of the claimed window: (i, j) with j in
\x7bi+1, i+2\x7d and j < N, listed in increasing index order. -/
def windowPairs (n : Nat) : List (Nat × Nat) :=
  (List.range n).flatMap (fun i =>
    (([i + 1, i + 2].filter (fun j => decide (j < n)))).map (fun j => (i, j)))

/-- Whether the raw sentiment labels of the pair differ (the emission test
of the source loop, which reads the label with no default). -/
def pairDiffers (articles : List Article) (p : Nat × Nat) : Bool :=
  decide ((articles[p.1]?.getD defaultArticle).sentimentLabel ≠
    (articles[p.2]?.getD defaultArticle).sentimentLabel)

/-- The coverage difference emitted for a qualifying pair. -/
def mkPairDifference (articles : List Article) (p : Nat × Nat) : CoverageDifference :=
  ⟨mkComparison (articles[p.1]?.getD defaultArticle) p.1
      (articles[p.2]?.getD defaultArticle) p.2,
   generate_impact_analysis (articles[p.1]?.getD defaultArticle)
      (articles[p.2]?.getD defaultArticle)⟩

/-- The decision table of claim C3, written from the wording of the spec:
first match wins, the counterbalance row substitutes the label of the
other article. -/
def specImpactTable (s1 s2 : String) : String :=
  if s1 = s2 then sharedPerceptionText
  else if s1 = "Positive" ∧ s2 = "Negative" then marketUncertaintyText
  else if s1 = "Negative" ∧ s2 = "Positive" then multipleInterpretationsText
  else if s2 = "Neutral" then counterbalanceText s1
  else if s1 = "Neutral" then counterbalanceText s2
  else differentAspectsText

/-- The verdict table of claim C4, written with exact rational ratios and
strict thresholds 0.6 and 0.4. -/
def ratioVerdict (dist : SentimentDist) : String :=
  if ((dist.positive : ℚ) / (distTotal dist : ℚ)) > 0.6 then "Very Positive"
  else if ((dist.positive : ℚ) / (distTotal dist : ℚ)) > 0.4 then "Moderately Positive"
  else if ((dist.negative : ℚ) / (distTotal dist : ℚ)) > 0.6 then "Very Negative"
  else if ((dist.negative : ℚ) / (distTotal dist : ℚ)) > 0.4 then "Moderately Negative"
  else "Mixed or Neutral"

/-- The five overall verdicts enumerated by the spec. -/
def overallVerdicts : List String :=
  ["Very Positive", "Moderately Positive", "Very Negative", "Moderately Negative",
   "Mixed or Neutral"]

/-- A sentiment label counted by one of the three buckets. -/
def recognizedLabel (a : Article) : Bool :=
  decide (a.sentimentLabel = some "Positive" ∨ a.sentimentLabel = some "Negative" ∨
    a.sentimentLabel = some "Neutral")

/-- The six narratives generate_final_sentiment_text can return. -/
def finalTexts (company_name : String) : List String :=
  ["No reliable sentiment data available for " ++ company_name ++ ".",
   company_name ++ apos ++ "s latest news coverage is overwhelmingly positive. The company is receiving favorable attention which may indicate strong performance.",
   company_name ++ apos ++ "s recent news coverage leans positive. The company appears to be performing well despite some challenges.",
   company_name ++ apos ++ "s latest news coverage is predominantly negative. The company may be facing significant challenges that could impact its performance.",
   company_name ++ apos ++ "s recent news coverage tends to be negative. The company appears to be facing some challenges that warrant attention.",
   company_name ++ apos ++ "s recent news coverage shows mixed sentiment. The company has both positive developments and challenges to navigate."]

/-! Concrete records used by witnesses and counterexamples. -/

/-- Article with no sentiment field at all. -/
def absentSentimentArticle : Article := ⟨none, none, none⟩

/-- Article whose sentiment label is the literal string Unknown. -/
def unknownLabelArticle : Article := ⟨none, some "Unknown", none⟩

/-- Topic-bearing witness articles. -/
def topicArticleAB : Article := ⟨none, none, some ["A", "B"]⟩

def topicArticleAC : Article := ⟨none, none, some ["A", "C"]⟩

/-- Five articles with empty pairwise-common core but topic X in three of
them (scenario 6 of the spec). -/
def fallbackBatch : List Article :=
  [⟨none, none, some ["X", "A"]⟩, ⟨none, none, some ["X", "B"]⟩,
   ⟨none, none, some ["X", "C"]⟩, ⟨none, none, some ["D"]⟩, ⟨none, none, some ["E"]⟩]

/-! Helper lemmas. -/

theorem filter_map_flatMap {α β γ : Type} (l : List α) (f : α → List β) (p : β → Bool)
    (g : β → γ) :
    ((l.flatMap f).filter p).map g = l.flatMap (fun x => ((f x).filter p).map g) := by
  induction l with
  | nil => rfl
  | cons x xs ih => simp [List.filter_append, List.map_append, ih]

theorem filterMap_ite_eq_filter_map {α β : Type} (l : List α) (p : α → Prop)
    [DecidablePred p] (g : α → β) :
    l.filterMap (fun x => if p x then some (g x) else none) =
      (l.filter (fun x => decide (p x))).map g := by
  induction l with
  | nil => rfl
  | cons x xs ih =>
    by_cases h : p x <;> simp [List.filterMap_cons, h, ih]

theorem range'_window (i n : Nat) :
    List.range' (i + 1) (min (i + 3) n - (i + 1)) =
      [i + 1, i + 2].filter (fun j => decide (j < n)) := by
  rcases Nat.lt_or_ge n (i + 2) with h | h
  · have e : min (i + 3) n - (i + 1) = 0 := by omega
    have d1 : ¬ (i + 1 < n) := by omega
    have d2 : ¬ (i + 2 < n) := by omega
    simp [e, d1, d2]
  · rcases Nat.lt_or_ge n (i + 3) with h2 | h2
    · have e : min (i + 3) n - (i + 1) = 1 := by omega
      have d1 : i + 1 < n := by omega
      have d2 : ¬ (i + 2 < n) := by omega
      simp [e, d1, d2, List.range']
    · have e : min (i + 3) n - (i + 1) = 2 := by omega
      have d1 : i + 1 < n := by omega
      have d2 : i + 2 < n := by omega
      simp [e, d1, d2, List.range']

theorem mem_foldl_union (l : List (Finset String)) (init : Finset String) (t : String) :
    t ∈ l.foldl (· ∪ ·) init ↔ t ∈ init ∨ ∃ s ∈ l, t ∈ s := by
  induction l generalizing init with
  | nil => simp
  | cons s l ih =>
    simp only [List.foldl_cons, ih, Finset.mem_union, List.mem_cons]
    constructor
    · rintro (⟨h | h⟩ | ⟨u, hu, ht⟩)
      · exact Or.inl h
      · exact Or.inr ⟨s, Or.inl rfl, h⟩
      · exact Or.inr ⟨u, Or.inr hu, ht⟩
    · rintro (h | ⟨u, (rfl | hu), ht⟩)
      · exact Or.inl (Or.inl h)
      · exact Or.inl (Or.inr ht)
      · exact Or.inr ⟨u, hu, ht⟩

theorem topicCount_pos (l : List (Finset String)) (t : String) :
    0 < topicCount l t ↔ ∃ s ∈ l, t ∈ s := by
  unfold topicCount
  rw [← List.countP_eq_length_filter, List.countP_pos_iff]
  simp

theorem filterMap_window_eq (articles : List Article) (i : Nat) (js : List Nat) :
    (js.filterMap (fun j =>
      if (articles[i]?.getD defaultArticle).sentimentLabel ≠
          (articles[j]?.getD defaultArticle).sentimentLabel then
        some ⟨mkComparison (articles[i]?.getD defaultArticle) i
                (articles[j]?.getD defaultArticle) j,
              generate_impact_analysis (articles[i]?.getD defaultArticle)
                (articles[j]?.getD defaultArticle)⟩
      else none)) =
    ((js.map (fun j => (i, j))).filter (pairDiffers articles)).map
      (mkPairDifference articles) := by
  induction js with
  | nil => rfl
  | cons j js ih =>
    simp only [List.filterMap_cons, List.map_cons, List.filter_cons, ih]
    by_cases h : (articles[i]?.getD defaultArticle).sentimentLabel =
        (articles[j]?.getD defaultArticle).sentimentLabel
    · rw [if_neg (not_not_intro h)]
      have hp : pairDiffers articles (i, j) = false := by
        simp [pairDiffers, h]
      rw [hp]
      simp
    · rw [if_pos h]
      have hp : pairDiffers articles (i, j) = true := by
        simp [pairDiffers, h]
      rw [hp]
      simp [mkPairDifference]

theorem coverageDifferencesAll_eq (articles : List Article) :
    coverageDifferencesAll articles =
      ((windowPairs articles.length).filter (pairDiffers articles)).map
        (mkPairDifference articles) := by
  unfold coverageDifferencesAll windowPairs
  rw [filter_map_flatMap]
  congr 1
  funext i
  rw [range'_window, filterMap_window_eq]

/-- C1: the coverage differences of compare_articles are exactly the pairs
(i, j) with j in \x7bi+1, i+2\x7d and j < N whose raw sentiment labels differ,
generated in increasing index order, truncated to the first 5, so the
returned list never holds more than 5 entries. -/
theorem compare_articles_coverage_window (articles : List Article) :
    (compare_articles articles).coverageDifferences =
      (((windowPairs articles.length).filter (pairDiffers articles)).map
        (mkPairDifference articles)).take 5 ∧
    (compare_articles articles).coverageDifferences.length ≤ 5 := by
  have key : (compare_articles articles).coverageDifferences =
      (coverageDifferencesAll articles).take 5 := by
    by_cases he : articles = []
    · subst he; rfl
    · simp [compare_articles, he]
  refine ⟨?_, ?_⟩
  · rw [key, coverageDifferencesAll_eq]
  · rw [key, List.length_take]
    omega

theorem ratio_gt_iff_06 (p t : Nat) (ht : 0 < t) :
    ((p : ℚ) / (t : ℚ) > 0.6) ↔ 5 * p > 3 * t := by
  have ht' : (0 : ℚ) < (t : ℚ) := by exact_mod_cast ht
  rw [gt_iff_lt, lt_div_iff₀ ht']
  constructor
  · intro h
    have h' : (3 : ℚ) * t < 5 * p := by linarith
    exact_mod_cast h'
  · intro h
    have h' : (3 : ℚ) * t < 5 * p := by exact_mod_cast h
    linarith

theorem ratio_gt_iff_04 (p t : Nat) (ht : 0 < t) :
    ((p : ℚ) / (t : ℚ) > 0.4) ↔ 5 * p > 2 * t := by
  have ht' : (0 : ℚ) < (t : ℚ) := by exact_mod_cast ht
  rw [gt_iff_lt, lt_div_iff₀ ht']
  constructor
  · intro h
    have h' : (2 : ℚ) * t < 5 * p := by linarith
    exact_mod_cast h'
  · intro h
    have h' : (2 : ℚ) * t < 5 * p := by exact_mod_cast h
    linarith

/-- C3: generate_impact_analysis implements the first-match-wins decision
table over the two resolved labels: equal labels give the shared
perception narrative, (Positive, Negative) in that order the market
uncertainty narrative, (Negative, Positive) the multiple interpretation
narrative, one Neutral label the counterbalance template holding the
other label lower-cased, and anything else the generic fallback. -/
theorem generate_impact_analysis_table (article1 article2 : Article) :
    generate_impact_analysis article1 article2 =
      specImpactTable (article1.sentimentLabel.getD "Unknown")
        (article2.sentimentLabel.getD "Unknown") := by
  unfold generate_impact_analysis specImpactTable
  by_cases h12 : article1.sentimentLabel.getD "Unknown" =
      article2.sentimentLabel.getD "Unknown" <;>
    by_cases h1 : article1.sentimentLabel.getD "Unknown" = "Neutral" <;>
      by_cases h2 : article2.sentimentLabel.getD "Unknown" = "Neutral" <;>
        simp [h12, h1, h2]

/-- C4: on a distribution with positive total, get_overall_sentiment
returns the verdict of the ordered strict-threshold ratio table (with
exact ratios, the boundary values 0.6 and 0.4 fail their branch). -/
theorem get_overall_sentiment_ratio (dist : SentimentDist) (h : 0 < distTotal dist) :
    get_overall_sentiment dist = ratioVerdict dist := by
  have h0 : ¬ (distTotal dist = 0) := by omega
  unfold get_overall_sentiment ratioVerdict
  simp only [ratio_gt_iff_06 _ _ h, ratio_gt_iff_04 _ _ h, if_neg h0]

/-- C4 witness: scenario 3 of the spec, distribution (8, 1, 1). -/
theorem get_overall_sentiment_ratio_witness :
    get_overall_sentiment ⟨8, 1, 1⟩ = ratioVerdict ⟨8, 1, 1⟩ :=
  get_overall_sentiment_ratio ⟨8, 1, 1⟩ (by decide)

/-- C7 counterexample: on the all-zero distribution the function returns
Neutral, which is not one of the five advertised verdicts. -/
theorem get_overall_sentiment_neutral_escape :
    get_overall_sentiment ⟨0, 0, 0⟩ = "Neutral" ∧ "Neutral" ∉ overallVerdicts := by
  refine ⟨rfl, ?_⟩
  decide

/-- C7 amended: whenever the distribution total is positive the returned
verdict is one of the five; on a zero total the function returns the
separate value Neutral. -/
theorem get_overall_sentiment_cases (dist : SentimentDist) :
    (distTotal dist ≠ 0 → get_overall_sentiment dist ∈ overallVerdicts) ∧
    (distTotal dist = 0 → get_overall_sentiment dist = "Neutral") := by
  constructor
  · intro h
    unfold get_overall_sentiment
    rw [if_neg h]
    split_ifs <;> simp [overallVerdicts]
  · intro h
    unfold get_overall_sentiment
    rw [if_pos h]

/-- C7 witness: the amended statement evaluated at distribution (8, 1, 1). -/
theorem get_overall_sentiment_cases_witness :
    get_overall_sentiment ⟨8, 1, 1⟩ ∈ overallVerdicts :=
  (get_overall_sentiment_cases ⟨8, 1, 1⟩).1 (by decide)

/-- C6: the model of the two entry points is total; the empty batch gives
the zero-valued default structure, and the narrative function always
returns one of its six closed templates (in the typed model the except
branches of the source are unreachable, so no exception escapes). -/
theorem core_functions_degrade_gracefully :
    compare_articles [] = emptyCompareResult ∧
    ∀ (company_name : String) (dist : SentimentDist),
      generate_final_sentiment_text company_name dist ∈ finalTexts company_name := by
  refine ⟨rfl, fun c d => ?_⟩
  unfold generate_final_sentiment_text finalTexts
  split_ifs <;> simp

theorem countP_three_buckets (l : List Article) :
    l.countP (fun a => decide (a.sentimentLabel = some "Positive")) +
      l.countP (fun a => decide (a.sentimentLabel = some "Negative")) +
      l.countP (fun a => decide (a.sentimentLabel = some "Neutral")) =
    l.countP recognizedLabel := by
  induction l with
  | nil => rfl
  | cons a l ih =>
    by_cases h1 : a.sentimentLabel = some "Positive" <;>
      by_cases h2 : a.sentimentLabel = some "Negative" <;>
        by_cases h3 : a.sentimentLabel = some "Neutral" <;>
          simp_all [List.countP_cons, recognizedLabel] <;> omega

/-- C8 counterexample: an article whose label is the literal string
Unknown has a present sentiment label, yet the three counts sum to 0,
not to the batch length 1. -/
theorem distribution_sum_unknown_cex :
    (unknownLabelArticle.sentimentLabel).isSome = true ∧
    distTotal (compare_articles [unknownLabelArticle]).sentimentDistribution = 0 ∧
    [unknownLabelArticle].length = 1 := by
  refine ⟨rfl, ?_, rfl⟩
  rfl

/-- C8 amended: the three counts of the distribution sum to the number of
articles whose label is literally Positive, Negative or Neutral (exact
case-sensitive match, each article counted in at most one bucket), hence
the sum is at most the batch length, with equality exactly when every
article carries one of the three recognized labels — a present but
unrecognized label also breaks equality. -/
theorem compare_articles_distribution_sum (articles : List Article) :
    distTotal (compare_articles articles).sentimentDistribution =
      articles.countP recognizedLabel ∧
    distTotal (compare_articles articles).sentimentDistribution ≤ articles.length ∧
    (distTotal (compare_articles articles).sentimentDistribution = articles.length ↔
      ∀ a ∈ articles, recognizedLabel a) := by
  have key : distTotal (compare_articles articles).sentimentDistribution =
      articles.countP recognizedLabel := by
    by_cases he : articles = []
    · subst he; rfl
    · have : (compare_articles articles).sentimentDistribution =
          ⟨articles.countP (fun a => decide (a.sentimentLabel = some "Positive")),
           articles.countP (fun a => decide (a.sentimentLabel = some "Negative")),
           articles.countP (fun a => decide (a.sentimentLabel = some "Neutral"))⟩ := by
        simp [compare_articles, he]
      rw [this]
      exact countP_three_buckets articles
  refine ⟨key, ?_, ?_⟩
  · rw [key]
    exact List.countP_le_length _
  · rw [key]
    exact List.countP_eq_length

theorem compare_articles_uniqueTopics_eq (articles : List Article) :
    (compare_articles articles).uniqueTopics =
      (topicSets articles).map (fun ts => ts \ (compare_articles articles).commonTopics) := by
  by_cases he : articles = []
  · subst he; rfl
  · simp [compare_articles, he]

/-- C5: the unique-topics sequence has one entry per topic-bearing article
in input order, and each entry is exactly that article's topic set minus
the common topics; consequently the entry is disjoint from the common
topics and together with them covers the article's topic set. -/
theorem compare_articles_unique_topics (articles : List Article) :
    (compare_articles articles).uniqueTopics.length = (topicSets articles).length ∧
    ∀ i, i < (topicSets articles).length →
      (compare_articles articles).uniqueTopics.getD i ∅ =
        (topicSets articles).getD i ∅ \ (compare_articles articles).commonTopics ∧
      (compare_articles articles).uniqueTopics.getD i ∅ ∩
        (compare_articles articles).commonTopics = ∅ ∧
      (topicSets articles).getD i ∅ ⊆
        (compare_articles articles).uniqueTopics.getD i ∅ ∪
          (compare_articles articles).commonTopics := by
  have key := compare_articles_uniqueTopics_eq articles
  constructor
  · rw [key, List.length_map]
  · intro i hi
    have hget : (compare_articles articles).uniqueTopics.getD i ∅ =
        (topicSets articles).getD i ∅ \ (compare_articles articles).commonTopics := by
      rw [key, List.getD_eq_getElem?_getD, List.getD_eq_getElem?_getD,
        List.getElem?_map, List.getElem?_eq_getElem hi]
      rfl
    refine ⟨hget, ?_, ?_⟩
    · rw [hget]
      exact Finset.sdiff_inter_self _ _
    · rw [hget, Finset.sdiff_union_self_eq_union]
      exact Finset.subset_union_left

/-- C5 witness: the invariant at index 0 of a batch of two topic-bearing
articles (scenario 1 of the spec). -/
theorem compare_articles_unique_topics_witness :
    (compare_articles [topicArticleAB, topicArticleAC]).uniqueTopics.getD 0 ∅ =
      (topicSets [topicArticleAB, topicArticleAC]).getD 0 ∅ \
        (compare_articles [topicArticleAB, topicArticleAC]).commonTopics ∧
    (compare_articles [topicArticleAB, topicArticleAC]).uniqueTopics.getD 0 ∅ ∩
      (compare_articles [topicArticleAB, topicArticleAC]).commonTopics = ∅ ∧
    (topicSets [topicArticleAB, topicArticleAC]).getD 0 ∅ ⊆
      (compare_articles [topicArticleAB, topicArticleAC]).uniqueTopics.getD 0 ∅ ∪
        (compare_articles [topicArticleAB, topicArticleAC]).commonTopics :=
  (compare_articles_unique_topics [topicArticleAB, topicArticleAC]).2 0 (by decide)

/-- C2: when the strict intersection of the topic sets is empty and at
least one topic set exists, a topic is common exactly when its frequency
over the topic sets reaches max(2, ceil of 0.3 times n), where n counts
only the topic-bearing articles of the batch. -/
theorem compare_articles_common_fallback (articles : List Article)
    (h1 : strictIntersection (topicSets articles) = ∅)
    (h2 : topicSets articles ≠ []) (t : String) :
    t ∈ (compare_articles articles).commonTopics ↔
      max 2 (Nat.ceil ((0.3 : ℚ) * (topicSets articles).length)) ≤
        topicCount (topicSets articles) t := by
  have he : articles ≠ [] := by
    intro h
    subst h
    exact h2 rfl
  have hcommon : (compare_articles articles).commonTopics =
      frequencyCommonTopics (topicSets articles) := by
    simp [compare_articles, he, commonTopicsOf, h1, h2]
  rw [hcommon]
  unfold frequencyCommonTopics
  rw [Finset.mem_filter]
  have hceil : Nat.ceil ((0.3 : ℚ) * ((topicSets articles).length : ℚ)) ≤
      topicCount (topicSets articles) t ↔
      3 * (topicSets articles).length ≤ 10 * topicCount (topicSets articles) t := by
    rw [Nat.ceil_le]
    constructor
    · intro h
      have h' : (3 : ℚ) * ((topicSets articles).length : ℚ) ≤
          10 * (topicCount (topicSets articles) t : ℚ) := by linarith
      exact_mod_cast h'
    · intro h
      have h' : (3 : ℚ) * ((topicSets articles).length : ℚ) ≤
          10 * (topicCount (topicSets articles) t : ℚ) := by exact_mod_cast h
      linarith
  constructor
  · rintro ⟨hmem, hge⟩
    rw [ge_iff_le, max_le_iff] at hge
    rw [max_le_iff]
    exact ⟨by omega, hceil.mpr (by omega)⟩
  · intro hge
    rw [max_le_iff] at hge
    have h3n := hceil.mp hge.2
    refine ⟨?_, ?_⟩
    · have hpos : 0 < topicCount (topicSets articles) t := by omega
      obtain ⟨s, hs, hts⟩ := (topicCount_pos _ _).mp hpos
      rw [mem_foldl_union]
      exact Or.inr ⟨s, hs, hts⟩
    · rw [ge_iff_le, max_le_iff]
      exact ⟨by omega, by omega⟩

/-- C2 witness: scenario 6 of the spec, five topic sets with empty strict
intersection and topic X in three of them. -/
theorem compare_articles_common_fallback_witness :
    "X" ∈ (compare_articles fallbackBatch).commonTopics ↔
      max 2 (Nat.ceil ((0.3 : ℚ) * (topicSets fallbackBatch).length)) ≤
        topicCount (topicSets fallbackBatch) "X" :=
  compare_articles_common_fallback fallbackBatch (by decide) (by decide) "X"

/-- C10 counterexample: for the batch (absent sentiment, literal Unknown
label) one difference is emitted, but its impact is the shared perception
narrative, not the generic fallback named by the claim. -/
theorem coverage_unknown_pair_cex :
    (compare_articles [absentSentimentArticle, unknownLabelArticle]).coverageDifferences.map
        CoverageDifference.impact = [sharedPerceptionText] ∧
    sharedPerceptionText ≠ differentAspectsText := by
  refine ⟨rfl, ?_⟩
  decide

/-- C10 amended: an absent label and the literal label Unknown differ for
the emission test, so the pair is emitted and both sides display the
resolved label Unknown; the impact, however, is the shared perception
narrative, because inside the impact analyzer both labels resolve to
Unknown and match its equal-labels row. -/
theorem coverage_unknown_pair (a1 a2 : Article)
    (h1 : a1.sentimentLabel = none) (h2 : a2.sentimentLabel = some "Unknown") :
    (compare_articles [a1, a2]).coverageDifferences =
      [⟨mkComparison a1 0 a2 1, sharedPerceptionText⟩] ∧
    a1.sentimentLabel.getD "Unknown" = "Unknown" ∧
    a2.sentimentLabel.getD "Unknown" = "Unknown" := by
  have himp : generate_impact_analysis a1 a2 = sharedPerceptionText := by
    unfold generate_impact_analysis
    rw [h1, h2]
    simp
  refine ⟨?_, by rw [h1]; rfl, by rw [h2]; rfl⟩
  have key : (compare_articles [a1, a2]).coverageDifferences =
      (coverageDifferencesAll [a1, a2]).take 5 := by
    simp [compare_articles]
  rw [key]
  unfold coverageDifferencesAll
  simp [List.range_succ, List.range', List.filterMap_cons, h1, h2, himp]

/-- C10 witness: the amended statement at the concrete pair of records. -/
theorem coverage_unknown_pair_witness :
    (compare_articles [absentSentimentArticle, unknownLabelArticle]).coverageDifferences =
      [⟨mkComparison absentSentimentArticle 0 unknownLabelArticle 1, sharedPerceptionText⟩] ∧
    absentSentimentArticle.sentimentLabel.getD "Unknown" = "Unknown" ∧
    unknownLabelArticle.sentimentLabel.getD "Unknown" = "Unknown" :=
  coverage_unknown_pair absentSentimentArticle unknownLabelArticle rfl rfl

/-- C8 witness: the amended statement evaluated on a one-article batch. -/
theorem compare_articles_distribution_sum_witness :
    distTotal (compare_articles [topicArticleAB]).sentimentDistribution =
      [topicArticleAB].countP recognizedLabel :=
  (compare_articles_distribution_sum [topicArticleAB]).1
